import Mathlib

/-!
Verification of the FalconMesh GCS telemetry synchronization engine.

Shallow embedding of the client-side telemetry code:
* src/gcs-ui/fm-map.js — the Leaflet HUD client (anchor, xyToLatLon,
  pointToLatLon, applyTelemetry, the trail ring buffer, the ws.onmessage
  classifier, the onclose/onerror reconnect handlers);
* src/unnamed/part_000 (App v3) — upsertNode, setSnapshot and its
  ws.onmessage classifier;
* src/unnamed/part_001 (App v2) — upsertNode / setSnapshot (same code).

JavaScript numbers are modelled as real numbers; JS objects with optional
fields become structures of Option fields; a missing or falsy node_id is
modelled as the empty string (both fail the truthiness guards in the same
way).  Rendering-only effects (Leaflet markers, polylines, circles, HTML
panels) are outside the modelled state, matching spec section 1 which
scopes them out; the one observable side effect of the mission overlay —
locking the projection anchor to a geographic base — is modelled.
-/

namespace FalconMesh

/-- A structured position field, `t.pos` / `mission.base` in the source:
a JS object that may carry geographic `lat`/`lon` and/or planar `x`/`y`
numbers. -/
structure Pos where
  lat : Option ℝ
  lon : Option ℝ
  x : Option ℝ
  y : Option ℝ

/-- A telemetry record (an entity / node).  `node_id` is the identifier,
with `""` standing for a missing or otherwise falsy identifier; `pos` is
the structured position field; `x`/`y` are the bare top-level planar
fields; `state` is the opaque lifecycle label. -/
structure Node where
  node_id : String
  pos : Option Pos
  x : Option ℝ
  y : Option ℝ
  state : Option String

/-- The `nodes` field of an inbound message: absent (or falsy), present
but not an array, or an actual array of records.  The distinction matters
because fm-map checks `Array.isArray(msg.nodes)`. -/
inductive NodesField where
  | absent
  | nonArray
  | arr (ns : List Node)

/-- The parts of a mission object that affect modelled state: only the
base region can lock the projection anchor (fm-map lines 101-105).  The
staging and target regions produce Leaflet layers only. -/
structure Mission where
  base : Option Pos

/-- A parsed inbound frame.  `type` is the discriminator field, `payload`
holds the same object viewed as a telemetry record (in the source the
message object itself is handed to applyTelemetry / upsertNode). -/
structure Msg where
  type : Option String
  nodes : NodesField
  mission : Option Mission
  payload : Node

/-- `Array.isArray(msg.nodes)` as an Option view. -/
def NodesField.asArr : NodesField → Option (List Node)
  | .arr ns => some ns
  | _ => none

/-- fm-map.js lines 26-30:
`lat = anchorLat + y / 111320.0;`
`lon = anchorLon + x / (111320.0 * Math.cos((anchorLat * Math.PI) / 180))`. -/
noncomputable def xyToLatLon (anchorLat anchorLon x y : ℝ) : ℝ × ℝ :=
  (anchorLat + y / 111320, anchorLon + x / (111320 * Real.cos (anchorLat * Real.pi / 180)))

/-- fm-map.js lines 32-37: geographic lat/lon wins, else planar x/y is
projected, else null. -/
noncomputable def pointToLatLon (anchorLat anchorLon : ℝ) (p : Option Pos) : Option (ℝ × ℝ) :=
  match p with
  | none => none
  | some q =>
    match q.lat, q.lon with
    | some la, some lo => some (la, lo)
    | _, _ =>
      match q.x, q.y with
      | some px, some py => some (xyToLatLon anchorLat anchorLon px py)
      | _, _ => none

/-- The first guard of the position chain in applyTelemetry (line 233):
`t.pos && typeof t.pos.lat === "number" && typeof t.pos.lon === "number"`. -/
def geoOf (t : Node) : Option (ℝ × ℝ) :=
  match t.pos with
  | some p =>
    match p.lat, p.lon with
    | some la, some lo => some (la, lo)
    | _, _ => none
  | none => none

/-- The second guard (line 235): `t.pos && typeof t.pos.x === "number" &&
typeof t.pos.y === "number"`, yielding the raw planar offset. -/
def planarOf (t : Node) : Option (ℝ × ℝ) :=
  match t.pos with
  | some p =>
    match p.x, p.y with
    | some px, some py => some (px, py)
    | _, _ => none
  | none => none

/-- The third guard (line 237): bare top-level `t.x` / `t.y`. -/
def bareOf (t : Node) : Option (ℝ × ℝ) :=
  match t.x, t.y with
  | some bx, some bz => some (bx, bz)
  | _, _ => none

/-- applyTelemetry lines 232-240: the if/else-if chain resolving a
record's position against the current anchor. -/
noncomputable def resolvePos (aLat aLon : ℝ) (t : Node) : Option (ℝ × ℝ) :=
  match geoOf t with
  | some ll => some ll
  | none =>
    match planarOf t with
    | some pxy => some (xyToLatLon aLat aLon pxy.1 pxy.2)
    | none =>
      match bareOf t with
      | some bxy => some (xyToLatLon aLat aLon bxy.1 bxy.2)
      | none => none

/-- The trail capacity of fm-map.js line 250 (`while (buf.length > 200)`). -/
def trailCap : Nat := 200

/-- `while (buf.length > 200) buf.shift();` — repeatedly drop the front
element while over capacity. -/
def shiftToCap (buf : List (ℝ × ℝ)) : List (ℝ × ℝ) :=
  if h : buf.length > trailCap then shiftToCap buf.tail else buf
termination_by buf.length
decreasing_by
  cases buf with
  | nil => simp [trailCap] at h
  | cons a l => simp

/-- fm-map.js lines 248-250: `buf.push(point)` followed by the eviction
loop. -/
def trailPush (buf : List (ℝ × ℝ)) (p : ℝ × ℝ) : List (ℝ × ℝ) :=
  shiftToCap (buf ++ [p])

/-- Pointwise update of a key-value map, the effect of `Map.prototype.set`
(`drones.set`, `trails.set`, `byIdRef.current.set`). -/
def fset {α : Type} (m : String → α) (k : String) (v : α) : String → α :=
  fun q => if q = k then v else m q

/-- The mutable state of the fm-map client that the claims are about:
projection anchor, the `drones` map, the `trails` map and the selection.
Markers and polylines mirror `drones`/`trails` into Leaflet layers and are
rendering-only. -/
structure MapState where
  anchorLat : ℝ
  anchorLon : ℝ
  drones : String → Option Node
  trails : String → List (ℝ × ℝ)
  selected : Option String

/-- fm-map.js lines 228-257.  Note the source stores the record
(`drones.set(t.node_id, t)`, line 230) BEFORE resolving the position, so
the entity map is updated even when no position resolves (the early
`return` on line 240 only skips the marker, trail and selection steps).
The selection is set on line 256 only when none exists yet. -/
noncomputable def applyTelemetry (s : MapState) (t : Node) : MapState :=
  if t.node_id = "" then s
  else
    match resolvePos s.anchorLat s.anchorLon t with
    | none => { s with drones := fset s.drones t.node_id (some t) }
    | some ll =>
      { s with
        drones := fset s.drones t.node_id (some t)
        trails := fset s.trails t.node_id (trailPush (s.trails t.node_id) ll)
        selected := match s.selected with
          | none => some t.node_id
          | some k => some k }

/-- The classification outcome of the fm-map ws.onmessage handler. -/
inductive Action where
  | discard
  | snapshot (ns : List Node)
  | missionUpdate (m : Mission)
  | delta (n : Node)
  | ignore

/-- fm-map.js lines 204-225: parse failure returns silently; then the
sequential guards `msg.type === "snapshot" && Array.isArray(msg.nodes)`,
`msg.type === "mission_update" && msg.mission`, `msg.node_id`. -/
def classify (p : Option Msg) : Action :=
  match p with
  | none => .discard
  | some m =>
    if hs : m.type = some "snapshot" ∧ (m.nodes.asArr).isSome = true then
      .snapshot ((m.nodes.asArr).get hs.2)
    else if hm : m.type = some "mission_update" ∧ m.mission.isSome = true then
      .missionUpdate (m.mission.get hm.2)
    else if m.payload.node_id = "" then .ignore
    else .delta m.payload

/-- drawMissionOverlay, state-visible part (fm-map.js lines 93-106): when
the base region resolves to a point and carries numeric lat/lon, the
anchor is locked to it.  The circles and tooltips are rendering-only. -/
noncomputable def drawMission (s : MapState) (mi : Mission) : MapState :=
  match mi.base with
  | none => s
  | some b =>
    match pointToLatLon s.anchorLat s.anchorLon (some b) with
    | none => s
    | some _ =>
      match b.lat, b.lon with
      | some la, some lo => { s with anchorLat := la, anchorLon := lo }
      | _, _ => s

/-- The full effect of one inbound frame on the fm-map state.  The
snapshot branch (lines 208-213) only iterates applyTelemetry over the
listed nodes; it never clears the `drones` map. -/
noncomputable def onMessage (p : Option Msg) (s : MapState) : MapState :=
  match classify p with
  | .discard => s
  | .ignore => s
  | .snapshot ns => ns.foldl applyTelemetry s
  | .missionUpdate mi => drawMission s mi
  | .delta n => applyTelemetry s n

/-- App v2/v3 upsertNode: `const id = n?.node_id; if (!id) return;
byIdRef.current.set(id, n)`. -/
def upsertNode (m : String → Option Node) (n : Node) : String → Option Node :=
  if n.node_id = "" then m else fset m n.node_id (some n)

/-- App v2/v3 setSnapshot: `byIdRef.current = new Map((arr || []).map((n)
=> [n.node_id, n]))` — a fresh map built from the list, later duplicates
winning. -/
def setSnapshot (arr : List Node) : String → Option Node :=
  arr.foldl (fun m n => fset m n.node_id (some n)) (fun _ => none)

/-- The App v3 state the claims touch: the node map, the mission and the
error banner (`err`). -/
structure V3State where
  byId : String → Option Node
  mission : Option Mission
  err : Option String

/-- App v3 ws.onmessage (src/unnamed/part_000 lines 291-309).  The whole
handler runs inside try/catch whose catch does
`setErr("WS parse error: " + ...)`: a parse failure, or the TypeError
thrown by `.map` on a truthy non-array `nodes`, surfaces an error message.
`type === "snapshot"` fires on any nodes value (`msg.nodes || []`);
`type === "mission_update"` fires on any mission value
(`setMission(msg.mission || null)`); everything else goes to upsertNode. -/
def onMessageV3 (p : Option Msg) (s : V3State) : V3State :=
  match p with
  | none => { s with err := some "WS parse error" }
  | some m =>
    if m.type = some "snapshot" then
      match m.nodes with
      | .arr ns => { s with byId := setSnapshot ns }
      | .absent => { s with byId := setSnapshot [] }
      | .nonArray => { s with err := some "WS parse error" }
    else if m.type = some "mission_update" then
      { s with mission := m.mission }
    else
      { s with byId := upsertNode s.byId m.payload }

/-- The reconnect delay of fm-map.js line 201: `setTimeout(connectWs, 1500)`. -/
def reconnectDelayMs : Nat := 1500

/-- Connection-manager state: the HUD status string, the due times (ms) of
pending reconnect timers, and how many connection objects have been
created. -/
structure ConnState where
  status : String
  pending : List Nat
  connections : Nat

/-- The discrete events the connection handlers react to.  `fire d` is the
event-loop running a timer that was scheduled with due time `d`. -/
inductive ConnEvent where
  | opened
  | errored
  | closed
  | fire (due : Nat)

/-- fm-map.js lines 197-202 as a step function at time `now` (ms):
`onopen` and `onerror` only set the status; `onclose` sets the status and
schedules exactly one timer 1500 ms out; a timer may fire only once
scheduled and once its due time has arrived, and firing runs connectWs,
which sets the status and creates one new connection object. -/
def connStep (now : Nat) (e : ConnEvent) (s : ConnState) : ConnState :=
  match e with
  | .opened => { s with status := "WS OK" }
  | .errored => { s with status := "WS ERROR" }
  | .closed =>
    { s with status := "WS CLOSED • RETRY"
             pending := s.pending ++ [now + reconnectDelayMs] }
  | .fire due =>
    if due ∈ s.pending ∧ due ≤ now then
      { s with status := "WS CONNECTING"
               pending := s.pending.erase due
               connections := s.connections + 1 }
    else s

/-! Concrete fixtures used by counterexamples and witnesses. -/

/-- A record carrying an identifier but no resolvable position at all. -/
def nodeNoPos : Node := { node_id := "A", pos := none, x := none, y := none, state := none }

/-- A record with a structured geographic position. -/
noncomputable def nodeGeoB : Node :=
  { node_id := "B"
    pos := some { lat := some 10, lon := some 20, x := none, y := none }
    x := none, y := none, state := some "NORMAL" }

/-- A fresh fm-map state: Ankara anchor, no drones, no trails, nothing
selected. -/
noncomputable def emptyMapState : MapState :=
  { anchorLat := 39.9334, anchorLon := 32.8597
    drones := fun _ => none, trails := fun _ => [], selected := none }

/-- The state after the positionless record for "A" has been applied. -/
noncomputable def storeWithA : MapState := applyTelemetry emptyMapState nodeNoPos

/-- A record with identifier "u1" and no position, used as a message
payload. -/
def nodeU1 : Node := { node_id := "u1", pos := none, x := none, y := none, state := none }

/-- A frame typed "snapshot" whose nodes field is absent but which carries
an identifier key. -/
def msgTypedFallthrough : Msg :=
  { type := some "snapshot", nodes := .absent, mission := none, payload := nodeU1 }

/-- A frame typed "mission_update" with a falsy mission payload, carrying
an identifier key. -/
def msgMissionFalsy : Msg :=
  { type := some "mission_update", nodes := .absent, mission := none, payload := nodeU1 }

/-- An empty App v3 state. -/
def v3Empty : V3State := { byId := fun _ => none, mission := none, err := none }

/-- A connection state right after a successful open. -/
def connAfterOpen : ConnState := { status := "WS OK", pending := [], connections := 1 }

/-- A connection state with a reconnect timer pending at due time 1500. -/
def connPending : ConnState :=
  { status := "WS CLOSED • RETRY", pending := [1500], connections := 1 }

/-- A record with no identifier, as carried by a snapshot envelope. -/
def nodeBlank : Node := { node_id := "", pos := none, x := none, y := none, state := none }

/-- A mission object with no base region. -/
def missionEmpty : Mission := { base := none }

/-- A well-formed snapshot frame. -/
def msgSnapGood : Msg :=
  { type := some "snapshot", nodes := .arr [nodeU1], mission := none, payload := nodeBlank }

/-- A well-formed mission_update frame. -/
def msgMissionGood : Msg :=
  { type := some "mission_update", nodes := .absent, mission := some missionEmpty
    payload := nodeBlank }

/-- An untyped delta frame carrying the "u1" record. -/
def msgDeltaU1 : Msg :=
  { type := none, nodes := .absent, mission := none, payload := nodeU1 }

/-! Helper lemmas about the map-update primitive and applyTelemetry. -/

theorem fset_self {α : Type} (m : String → α) (k : String) (v : α) : fset m k v k = v := by
  simp [fset]

theorem fset_other {α : Type} (m : String → α) (k q : String) (v : α) (h : q ≠ k) :
    fset m k v q = m q := by
  simp [fset, h]

theorem applyTelemetry_invalid (s : MapState) (t : Node) (h : t.node_id = "") :
    applyTelemetry s t = s := by
  simp [applyTelemetry, h]

theorem applyTelemetry_noPos (s : MapState) (t : Node) (h1 : ¬ t.node_id = "")
    (h2 : resolvePos s.anchorLat s.anchorLon t = none) :
    applyTelemetry s t = { s with drones := fset s.drones t.node_id (some t) } := by
  simp [applyTelemetry, h1, h2]

theorem applyTelemetry_withPos (s : MapState) (t : Node) (ll : ℝ × ℝ) (h1 : ¬ t.node_id = "")
    (h2 : resolvePos s.anchorLat s.anchorLon t = some ll) :
    applyTelemetry s t =
      { s with
        drones := fset s.drones t.node_id (some t)
        trails := fset s.trails t.node_id (trailPush (s.trails t.node_id) ll)
        selected := match s.selected with
          | none => some t.node_id
          | some k => some k } := by
  simp [applyTelemetry, h1, h2]

theorem applyTelemetry_drones_self (s : MapState) (t : Node) (h1 : ¬ t.node_id = "") :
    (applyTelemetry s t).drones t.node_id = some t := by
  cases h2 : resolvePos s.anchorLat s.anchorLon t with
  | none => rw [applyTelemetry_noPos s t h1 h2]; exact fset_self ..
  | some ll => rw [applyTelemetry_withPos s t ll h1 h2]; exact fset_self ..

theorem applyTelemetry_drones_other (s : MapState) (t : Node) (q : String)
    (hq : q ≠ t.node_id) : (applyTelemetry s t).drones q = s.drones q := by
  by_cases h1 : t.node_id = ""
  · rw [applyTelemetry_invalid s t h1]
  · cases h2 : resolvePos s.anchorLat s.anchorLon t with
    | none => rw [applyTelemetry_noPos s t h1 h2]; exact fset_other _ _ _ _ hq
    | some ll => rw [applyTelemetry_withPos s t ll h1 h2]; exact fset_other _ _ _ _ hq

theorem applyTelemetry_trails_other (s : MapState) (t : Node) (q : String)
    (hq : q ≠ t.node_id) : (applyTelemetry s t).trails q = s.trails q := by
  by_cases h1 : t.node_id = ""
  · rw [applyTelemetry_invalid s t h1]
  · cases h2 : resolvePos s.anchorLat s.anchorLon t with
    | none => rw [applyTelemetry_noPos s t h1 h2]
    | some ll => rw [applyTelemetry_withPos s t ll h1 h2]; exact fset_other _ _ _ _ hq

theorem applyTelemetry_drones_keep (s : MapState) (t : Node) (q : String)
    (h : s.drones q ≠ none) : (applyTelemetry s t).drones q ≠ none := by
  by_cases hq : q = t.node_id
  · by_cases h1 : t.node_id = ""
    · rw [applyTelemetry_invalid s t h1]; exact h
    · subst hq; rw [applyTelemetry_drones_self s t h1]; simp
  · rw [applyTelemetry_drones_other s t q hq]; exact h

theorem applyTelemetry_selected_some (s : MapState) (t : Node) (k : String)
    (hs : s.selected = some k) : (applyTelemetry s t).selected = some k := by
  by_cases h1 : t.node_id = ""
  · rw [applyTelemetry_invalid s t h1]; exact hs
  · cases h2 : resolvePos s.anchorLat s.anchorLon t with
    | none => rw [applyTelemetry_noPos s t h1 h2]; exact hs
    | some ll => rw [applyTelemetry_withPos s t ll h1 h2]; simp [hs]

theorem applyTelemetry_selected_still (s : MapState) (t : Node)
    (h : resolvePos s.anchorLat s.anchorLon t = none ∨ t.node_id = "") :
    (applyTelemetry s t).selected = s.selected := by
  by_cases h1 : t.node_id = ""
  · rw [applyTelemetry_invalid s t h1]
  · have h2 : resolvePos s.anchorLat s.anchorLon t = none := h.resolve_right h1
    rw [applyTelemetry_noPos s t h1 h2]

theorem applyTelemetry_selected_auto (s : MapState) (t : Node) (ll : ℝ × ℝ)
    (hs : s.selected = none) (h1 : ¬ t.node_id = "")
    (h2 : resolvePos s.anchorLat s.anchorLon t = some ll) :
    (applyTelemetry s t).selected = some t.node_id := by
  rw [applyTelemetry_withPos s t ll h1 h2]; simp [hs]

/-! Helper lemmas about folding applyTelemetry over a snapshot list. -/

theorem foldl_drones_other (ns : List Node) (s : MapState) (k : String)
    (hk : k ∉ ns.map Node.node_id) :
    (ns.foldl applyTelemetry s).drones k = s.drones k := by
  induction ns generalizing s with
  | nil => rfl
  | cons n rest ih =>
    simp only [List.map_cons, List.mem_cons, not_or] at hk
    simp only [List.foldl_cons]
    rw [ih _ hk.2, applyTelemetry_drones_other s n k hk.1]

theorem foldl_trails_other (ns : List Node) (s : MapState) (k : String)
    (hk : k ∉ ns.map Node.node_id) :
    (ns.foldl applyTelemetry s).trails k = s.trails k := by
  induction ns generalizing s with
  | nil => rfl
  | cons n rest ih =>
    simp only [List.map_cons, List.mem_cons, not_or] at hk
    simp only [List.foldl_cons]
    rw [ih _ hk.2, applyTelemetry_trails_other s n k hk.1]

theorem foldl_drones_keep (ns : List Node) (s : MapState) (k : String)
    (h : s.drones k ≠ none) : (ns.foldl applyTelemetry s).drones k ≠ none := by
  induction ns generalizing s with
  | nil => exact h
  | cons n rest ih =>
    simp only [List.foldl_cons]
    exact ih _ (applyTelemetry_drones_keep s n k h)

/-! Helper lemmas about the App setSnapshot map. -/

theorem setSnapshot_foldl_isSome (arr : List Node) (m0 : String → Option Node) (k : String) :
    ((arr.foldl (fun m n => fset m n.node_id (some n)) m0) k).isSome = true ↔
      (m0 k).isSome = true ∨ k ∈ arr.map Node.node_id := by
  induction arr generalizing m0 with
  | nil => simp
  | cons n rest ih =>
    simp only [List.foldl_cons, List.map_cons, List.mem_cons]
    rw [ih]
    by_cases hk : k = n.node_id
    · subst hk; simp [fset]
    · rw [fset_other _ _ _ _ hk]
      constructor
      · rintro (h | h)
        · exact Or.inl h
        · exact Or.inr (Or.inr h)
      · rintro (h | h | h)
        · exact Or.inl h
        · exact absurd h hk
        · exact Or.inr h

/-! Helper lemmas about the trail ring buffer. -/

theorem shiftToCap_eq_drop (b : List (ℝ × ℝ)) :
    shiftToCap b = b.drop (b.length - trailCap) := by
  induction b using shiftToCap.induct with
  | case1 b h ih =>
    rw [shiftToCap, dif_pos h, ih]
    cases b with
    | nil => simp [trailCap] at h
    | cons a l =>
      simp only [List.length_cons] at h ⊢
      have hlen : l.length + 1 - trailCap = (l.length - trailCap) + 1 := by
        omega
      rw [hlen, List.drop_succ_cons, List.tail_cons]
  | case2 b h =>
    rw [shiftToCap, dif_neg h]
    have : b.length - trailCap = 0 := by omega
    rw [this, List.drop_zero]

theorem trailPush_eq_drop (buf : List (ℝ × ℝ)) (p : ℝ × ℝ) :
    trailPush buf p = (buf ++ [p]).drop ((buf ++ [p]).length - trailCap) :=
  shiftToCap_eq_drop (buf ++ [p])

theorem trailPush_length (buf : List (ℝ × ℝ)) (p : ℝ × ℝ) :
    (trailPush buf p).length = min (buf.length + 1) trailCap := by
  rw [trailPush_eq_drop, List.length_drop]
  simp only [List.length_append, List.length_cons, List.length_nil]
  omega

theorem trailPush_length_le (buf : List (ℝ × ℝ)) (p : ℝ × ℝ) :
    (trailPush buf p).length ≤ trailCap := by
  rw [trailPush_length]; omega

theorem foldl_trailPush_length_le_aux (ps : List (ℝ × ℝ)) (b0 : List (ℝ × ℝ))
    (h : b0.length ≤ trailCap) : (ps.foldl trailPush b0).length ≤ trailCap := by
  induction ps generalizing b0 with
  | nil => exact h
  | cons q qs ih =>
    simp only [List.foldl_cons]
    exact ih _ (trailPush_length_le _ _)

theorem foldl_trailPush_length_le (ps : List (ℝ × ℝ)) :
    (ps.foldl trailPush []).length ≤ trailCap :=
  foldl_trailPush_length_le_aux ps [] (by simp [trailCap])

/-! Claim theorems. -/

/-- C8: the coordinate projector computes lat = anchor.lat + y/111320 and
lon = anchor.lon + x/(111320 * cos(anchor.lat in radians)); for the anchor
(39.9334, 32.8597) the offset (0,0) projects exactly to the anchor, and
the offset (0, 111320) increases latitude by exactly 1.0 degree while
preserving longitude. -/
theorem projector_exact :
    (∀ aLat aLon x y : ℝ, xyToLatLon aLat aLon x y =
        (aLat + y / 111320, aLon + x / (111320 * Real.cos (aLat * Real.pi / 180))))
  ∧ xyToLatLon 39.9334 32.8597 0 0 = (39.9334, 32.8597)
  ∧ xyToLatLon 39.9334 32.8597 0 111320 = (39.9334 + 1, 32.8597) := by
  refine ⟨fun aLat aLon x y => rfl, ?_, ?_⟩
  · simp [xyToLatLon]
  · simp only [xyToLatLon, Prod.mk.injEq]
    constructor
    · norm_num
    · norm_num

/-- C7: position resolution for a delta record tries, in order, the
structured geographic lat/lon field, the structured planar x/y field
projected through the coordinate projector, then the bare top-level x/y
field projected likewise; the first matching form wins, and in particular
a geographic form beats a coexisting planar form. -/
theorem resolution_order (aLat aLon : ℝ) (t : Node) :
    (∀ la lo, geoOf t = some (la, lo) → resolvePos aLat aLon t = some (la, lo))
  ∧ (∀ px py, geoOf t = none → planarOf t = some (px, py) →
        resolvePos aLat aLon t = some (xyToLatLon aLat aLon px py))
  ∧ (∀ bx bz, geoOf t = none → planarOf t = none → bareOf t = some (bx, bz) →
        resolvePos aLat aLon t = some (xyToLatLon aLat aLon bx bz))
  ∧ (∀ la lo px py, geoOf t = some (la, lo) → planarOf t = some (px, py) →
        resolvePos aLat aLon t = some (la, lo)) := by
  refine ⟨?_, ?_, ?_, ?_⟩
  · intro la lo h; simp [resolvePos, h]
  · intro px py h1 h2; simp [resolvePos, h1, h2]
  · intro bx bz h1 h2 h3; simp [resolvePos, h1, h2, h3]
  · intro la lo px py h _; simp [resolvePos, h]

/-- C7 witness: a record with a structured geographic position resolves to
exactly that position. -/
theorem resolution_order_w :
    resolvePos 39.9334 32.8597 nodeGeoB = some (10, 20) :=
  (resolution_order 39.9334 32.8597 nodeGeoB).1 10 20 rfl

/-- C6: trail length never exceeds 200 over any sequence of appends; an
append is exactly push-then-drop-from-the-front (FIFO) and lands on length
200 whenever the cap would be exceeded; and applying a snapshot leaves the
trail of every entity not listed in it untouched. -/
theorem trail_cap_fifo :
    (∀ ps : List (ℝ × ℝ), (ps.foldl trailPush []).length ≤ trailCap)
  ∧ (∀ (buf : List (ℝ × ℝ)) (p : ℝ × ℝ),
        trailPush buf p = (buf ++ [p]).drop ((buf ++ [p]).length - trailCap))
  ∧ (∀ (buf : List (ℝ × ℝ)) (p : ℝ × ℝ), trailCap < (buf ++ [p]).length →
        (trailPush buf p).length = trailCap)
  ∧ (∀ (s : MapState) (ns : List Node) (k : String), k ∉ ns.map Node.node_id →
        (ns.foldl applyTelemetry s).trails k = s.trails k) := by
  refine ⟨foldl_trailPush_length_le, trailPush_eq_drop, ?_, ?_⟩
  · intro buf p h
    rw [trailPush_length]
    simp only [List.length_append, List.length_cons, List.length_nil] at h
    omega
  · intro s ns k hk
    exact foldl_trails_other ns s k hk

/-- C6 witness: an append to a full trail lands exactly on the cap, and a
snapshot listing only "B" leaves the trail of "A" unchanged. -/
theorem trail_cap_fifo_w :
    (trailPush (List.replicate 200 ((0 : ℝ), (0 : ℝ))) (0, 0)).length = trailCap
  ∧ ([nodeGeoB].foldl applyTelemetry storeWithA).trails "A" = storeWithA.trails "A" :=
  ⟨trail_cap_fifo.2.2.1 (List.replicate 200 ((0 : ℝ), (0 : ℝ))) (0, 0)
     (by
       simp only [trailCap, List.length_append, List.length_replicate, List.length_cons,
         List.length_nil]
       exact Nat.lt_succ_self 200),
   trail_cap_fifo.2.2.2 storeWithA [nodeGeoB] "A" (by decide)⟩

/-- C9: a delta with a valid identifier and resolvable position upserts
exactly that entity — the record is stored under its identifier and every
other entity keeps its stored record and trail unchanged; likewise the App
upsertNode touches only the record under the given identifier. -/
theorem delta_upsert_frame (s : MapState) (t : Node)
    (h1 : ¬ t.node_id = "")
    (_h2 : (resolvePos s.anchorLat s.anchorLon t).isSome = true) :
    ((applyTelemetry s t).drones t.node_id = some t)
  ∧ (∀ k, k ≠ t.node_id →
      (applyTelemetry s t).drones k = s.drones k ∧
      (applyTelemetry s t).trails k = s.trails k)
  ∧ (∀ (m : String → Option Node) (n : Node), ¬ n.node_id = "" →
      upsertNode m n n.node_id = some n ∧
      ∀ k, k ≠ n.node_id → upsertNode m n k = m k) := by
  refine ⟨applyTelemetry_drones_self s t h1, ?_, ?_⟩
  · intro k hk
    exact ⟨applyTelemetry_drones_other s t k hk, applyTelemetry_trails_other s t k hk⟩
  · intro m n hn
    constructor
    · simp only [upsertNode, if_neg hn]; exact fset_self ..
    · intro k hk
      simp only [upsertNode, if_neg hn]; exact fset_other _ _ _ _ hk

/-- C9 witness: applying the geographic record for "B" to the empty state
stores it under "B" and leaves the (absent) record of "Z" unchanged. -/
theorem delta_upsert_frame_w :
    (applyTelemetry emptyMapState nodeGeoB).drones "B" = some nodeGeoB
  ∧ (applyTelemetry emptyMapState nodeGeoB).drones "Z" = emptyMapState.drones "Z" :=
  ⟨(delta_upsert_frame emptyMapState nodeGeoB (by decide) rfl).1,
   ((delta_upsert_frame emptyMapState nodeGeoB (by decide) rfl).2.1 "Z" (by decide)).1⟩

/-- C1 counterexample: in fm-map the snapshot branch does not drop
entities absent from the snapshot — after applying a snapshot listing only
"B" to a store holding "A", the record for "A" is still present although
"A" is not among the snapshot identifiers. -/
theorem snapshot_replacement_cex :
    (([nodeGeoB].foldl applyTelemetry storeWithA).drones "A" = some nodeNoPos)
  ∧ "A" ∉ [nodeGeoB].map Node.node_id :=
  ⟨rfl, by decide⟩

/-- C1 (amended): the App store setSnapshot fully replaces the entity set
— afterwards an identifier has a record exactly when it occurs in the
snapshot; the fm-map snapshot branch instead applies each listed record as
a delta, dropping nothing: existing records never disappear and entities
not listed keep their record unchanged. -/
theorem snapshot_semantics_amended :
    (∀ (arr : List Node) (k : String),
        ((setSnapshot arr k).isSome = true ↔ k ∈ arr.map Node.node_id))
  ∧ (∀ (s : MapState) (ns : List Node) (k : String), s.drones k ≠ none →
        (ns.foldl applyTelemetry s).drones k ≠ none)
  ∧ (∀ (s : MapState) (ns : List Node) (k : String), k ∉ ns.map Node.node_id →
        (ns.foldl applyTelemetry s).drones k = s.drones k) := by
  refine ⟨?_, ?_, ?_⟩
  · intro arr k
    rw [setSnapshot, setSnapshot_foldl_isSome]
    simp
  · intro s ns k h; exact foldl_drones_keep ns s k h
  · intro s ns k hk; exact foldl_drones_other ns s k hk

/-- C1 witness: "B" is present after an App snapshot listing it, and the
fm-map record for "A" survives a snapshot listing only "B". -/
theorem snapshot_semantics_amended_w :
    (setSnapshot [nodeGeoB] "B").isSome = true
  ∧ ([nodeGeoB].foldl applyTelemetry storeWithA).drones "A" ≠ none :=
  ⟨(snapshot_semantics_amended.1 [nodeGeoB] "B").mpr (by decide),
   snapshot_semantics_amended.2.1 storeWithA [nodeGeoB] "A"
     (by rw [show storeWithA.drones "A" = some nodeNoPos from rfl]; simp)⟩

/-- C2 counterexample: a delta with an identifier but no resolvable
position is NOT a no-op — the source stores the record before the position
check, so the entity map changes. -/
theorem delta_no_position_cex :
    ((applyTelemetry emptyMapState nodeNoPos).drones "A" = some nodeNoPos)
  ∧ emptyMapState.drones "A" = none :=
  ⟨rfl, rfl⟩

/-- C2 (amended): a delta with an identifier but no resolvable position
stores the record in the entity map under its identifier, and that is its
only effect — trails and selection are unchanged and every other entity
record is untouched. -/
theorem delta_no_position_amended (s : MapState) (t : Node)
    (h1 : ¬ t.node_id = "") (h2 : resolvePos s.anchorLat s.anchorLon t = none) :
    ((applyTelemetry s t).drones t.node_id = some t)
  ∧ ((applyTelemetry s t).trails = s.trails)
  ∧ ((applyTelemetry s t).selected = s.selected)
  ∧ (∀ k, k ≠ t.node_id → (applyTelemetry s t).drones k = s.drones k) := by
  rw [applyTelemetry_noPos s t h1 h2]
  refine ⟨fset_self .., rfl, rfl, ?_⟩
  intro k hk; exact fset_other _ _ _ _ hk

/-- C2 witness: the positionless record for "A" is stored, while the
trails map is left as it was. -/
theorem delta_no_position_amended_w :
    ((applyTelemetry emptyMapState nodeNoPos).drones "A" = some nodeNoPos)
  ∧ ((applyTelemetry emptyMapState nodeNoPos).trails = emptyMapState.trails) :=
  ⟨(delta_no_position_amended emptyMapState nodeNoPos (by decide) rfl).1,
   (delta_no_position_amended emptyMapState nodeNoPos (by decide) rfl).2.1⟩

/-- C4 counterexample: the record for "A" is observed by the Store (it is
in the entity map) before "B" ever appears, yet the default selection goes
to "B" — auto-selection skips entities stored without a resolvable
position, so the first entity ever observed does not become the
selection. -/
theorem auto_selection_cex :
    ((applyTelemetry emptyMapState nodeNoPos).drones "A" = some nodeNoPos)
  ∧ ((applyTelemetry emptyMapState nodeNoPos).selected = none)
  ∧ ((applyTelemetry (applyTelemetry emptyMapState nodeNoPos) nodeGeoB).selected = some "B") :=
  ⟨rfl, rfl, rfl⟩

/-- C4 (amended): an existing selection is never overwritten by an
observed entity (so the rule fires at most once unless cleared); a record
without a resolvable position, or without an identifier, leaves the
selection unchanged; and when no selection exists, the first record with a
valid identifier and resolvable position becomes the default selection. -/
theorem auto_selection_amended :
    (∀ (s : MapState) (t : Node) (k : String), s.selected = some k →
        (applyTelemetry s t).selected = some k)
  ∧ (∀ (s : MapState) (t : Node),
        resolvePos s.anchorLat s.anchorLon t = none ∨ t.node_id = "" →
        (applyTelemetry s t).selected = s.selected)
  ∧ (∀ (s : MapState) (t : Node) (ll : ℝ × ℝ), s.selected = none → ¬ t.node_id = "" →
        resolvePos s.anchorLat s.anchorLon t = some ll →
        (applyTelemetry s t).selected = some t.node_id) :=
  ⟨applyTelemetry_selected_some, applyTelemetry_selected_still, applyTelemetry_selected_auto⟩

/-- C4 witness: an existing selection "Z" survives a positioned record;
the positionless record for "A" does not select; the positioned record for
"B" becomes the default selection when none exists. -/
theorem auto_selection_amended_w :
    ((applyTelemetry { emptyMapState with selected := some "Z" } nodeGeoB).selected = some "Z")
  ∧ ((applyTelemetry emptyMapState nodeNoPos).selected = emptyMapState.selected)
  ∧ ((applyTelemetry storeWithA nodeGeoB).selected = some "B") :=
  ⟨auto_selection_amended.1 _ nodeGeoB "Z" rfl,
   auto_selection_amended.2.1 emptyMapState nodeNoPos (Or.inl rfl),
   auto_selection_amended.2.2 storeWithA nodeGeoB (10, 20) rfl (by decide) rfl⟩

/-- C3 counterexample: in fm-map a frame typed "snapshot" whose nodes
field is not an array but which carries a node_id IS routed as a delta,
so a typed message can be routed by identifier; and in the App v3 handler
a frame that fails to parse surfaces a visible parse-error message rather
than being silently discarded. -/
theorem classification_cex :
    (classify (some msgTypedFallthrough) = Action.delta nodeU1)
  ∧ (msgTypedFallthrough.type = some "snapshot")
  ∧ ((onMessageV3 none v3Empty).err = some "WS parse error")
  ∧ (v3Empty.err = none) :=
  ⟨rfl, rfl, rfl, rfl⟩

/-- C3 (amended): in fm-map an unparseable frame is silently discarded —
the handler leaves the whole state unchanged; the classifier checks the
snapshot shape (type "snapshot" with an array nodes field) and then the
mission shape (type "mission_update" with a truthy mission) before
identifier routing, and a frame matching either typed shape is never
routed as a delta; delta routing is reached only by frames matching
neither shape and carrying an identifier.  In the App v3 handler, however,
a parse failure surfaces an error message. -/
theorem classification_amended :
    (classify none = Action.discard)
  ∧ (∀ s : MapState, onMessage none s = s)
  ∧ (∀ (m : Msg) (ns : List Node), m.type = some "snapshot" → m.nodes.asArr = some ns →
        classify (some m) = Action.snapshot ns)
  ∧ (∀ (m : Msg) (mi : Mission), m.type = some "mission_update" → m.mission = some mi →
        classify (some m) = Action.missionUpdate mi)
  ∧ (∀ s : V3State, (onMessageV3 none s).err = some "WS parse error")
  ∧ (∀ (m : Msg) (n : Node), classify (some m) = Action.delta n →
        n = m.payload ∧ ¬ m.payload.node_id = "" ∧
        ¬ (m.type = some "snapshot" ∧ (m.nodes.asArr).isSome = true) ∧
        ¬ (m.type = some "mission_update" ∧ m.mission.isSome = true)) := by
  refine ⟨rfl, fun s => rfl, ?_, ?_, fun s => rfl, ?_⟩
  · intro m ns h1 h2
    simp [classify, h1, h2]
  · intro m mi h1 h2
    simp [classify, h1, h2]
  · intro m n h
    simp only [classify] at h
    split_ifs at h with hA hB hC
    all_goals simp at h
    exact ⟨h.symm, hC, hA, hB⟩

/-- C3 witness: a well-formed snapshot frame classifies as a snapshot, a
well-formed mission frame as a mission update, and a frame that classified
as a delta indeed carried an identifier. -/
theorem classification_amended_w :
    classify (some msgSnapGood) = Action.snapshot [nodeU1]
  ∧ classify (some msgMissionGood) = Action.missionUpdate missionEmpty
  ∧ ¬ msgDeltaU1.payload.node_id = "" :=
  ⟨classification_amended.2.2.1 msgSnapGood [nodeU1] rfl rfl,
   classification_amended.2.2.2.1 msgMissionGood missionEmpty rfl rfl,
   (classification_amended.2.2.2.2.2 msgDeltaU1 nodeU1 rfl).2.1⟩

/-- C10 counterexample: in the App v3 handler a frame typed
"mission_update" with a falsy mission payload does NOT fall through to
identifier routing — the typed branch fires, the mission is cleared and
the record carried under node_id "u1" is not upserted (upsertNode would
have stored it). -/
theorem typed_fallthrough_cex :
    ((onMessageV3 (some msgMissionFalsy) v3Empty).byId "u1" = none)
  ∧ ((onMessageV3 (some msgMissionFalsy) v3Empty).mission = none)
  ∧ (upsertNode v3Empty.byId nodeU1 "u1" = some nodeU1) :=
  ⟨rfl, rfl, rfl⟩

/-- C10 (amended): in the fm-map classifier a frame typed "mission_update"
with a falsy mission, or typed "snapshot" with a non-array nodes field,
falls through to identifier routing and is applied to the Store as a delta
when it carries a node_id; in the App v3 classifier a "mission_update"
frame always fires the typed branch — the stored mission is replaced by
the (possibly absent) payload and the frame is never routed as a delta. -/
theorem typed_fallthrough_amended :
    (∀ (s : MapState) (m : Msg), m.type = some "mission_update" → m.mission = none →
        ¬ m.payload.node_id = "" → onMessage (some m) s = applyTelemetry s m.payload)
  ∧ (∀ (s : MapState) (m : Msg), m.type = some "snapshot" → m.nodes.asArr = none →
        ¬ m.payload.node_id = "" → onMessage (some m) s = applyTelemetry s m.payload)
  ∧ (∀ (s : V3State) (m : Msg), m.type = some "mission_update" →
        onMessageV3 (some m) s = { s with mission := m.mission }) := by
  refine ⟨?_, ?_, ?_⟩
  · intro s m h1 h2 h3
    have hc : classify (some m) = Action.delta m.payload := by
      simp [classify, h1, h2, h3]
    simp [onMessage, hc]
  · intro s m h1 h2 h3
    have hc : classify (some m) = Action.delta m.payload := by
      simp [classify, h1, h2, h3]
    simp [onMessage, hc]
  · intro s m h1
    simp [onMessageV3, h1]

/-- C10 witness: both malformed typed frames are applied as deltas by
fm-map, and App v3 handles the falsy mission_update frame in its typed
branch. -/
theorem typed_fallthrough_amended_w :
    (onMessage (some msgMissionFalsy) emptyMapState = applyTelemetry emptyMapState nodeU1)
  ∧ (onMessage (some msgTypedFallthrough) emptyMapState = applyTelemetry emptyMapState nodeU1)
  ∧ (onMessageV3 (some msgMissionFalsy) v3Empty = { v3Empty with mission := none }) :=
  ⟨typed_fallthrough_amended.1 emptyMapState msgMissionFalsy rfl rfl (by decide),
   typed_fallthrough_amended.2.1 emptyMapState msgTypedFallthrough rfl rfl (by decide),
   typed_fallthrough_amended.2.2 v3Empty msgMissionFalsy rfl⟩

/-- C5 counterexample: an error event schedules no reconnect at all — the
onerror handler only updates the status, so after an error on an open
connection the set of pending reconnect timers is empty, not a single
1500 ms timer as claimed. -/
theorem reconnect_cex :
    ((connStep 0 ConnEvent.errored connAfterOpen).pending = [])
  ∧ ((connStep 0 ConnEvent.errored connAfterOpen).pending.length ≠ 1) :=
  ⟨rfl, by decide⟩

/-- C5 (amended): a close event schedules exactly one reconnect timer, due
1500 ms after the close, and creates no connection itself; an error event
changes neither the pending timers nor the connections (the reconnect is
driven by the close that accompanies it); open creates no connection; and
a connection is only ever created by a scheduled timer firing at or after
its due time — hence no new connection before the 1500 ms delay elapses. -/
theorem reconnect_amended :
    (∀ (t : Nat) (s : ConnState),
        (connStep t ConnEvent.closed s).pending = s.pending ++ [t + reconnectDelayMs]
      ∧ (connStep t ConnEvent.closed s).connections = s.connections)
  ∧ (∀ (t : Nat) (s : ConnState),
        (connStep t ConnEvent.errored s).pending = s.pending
      ∧ (connStep t ConnEvent.errored s).connections = s.connections)
  ∧ (∀ (t : Nat) (s : ConnState), (connStep t ConnEvent.opened s).connections = s.connections)
  ∧ (∀ (t d : Nat) (s : ConnState),
        (connStep t (ConnEvent.fire d) s).connections ≠ s.connections →
        d ≤ t ∧ d ∈ s.pending)
  ∧ reconnectDelayMs = 1500 := by
  refine ⟨fun t s => ⟨rfl, rfl⟩, fun t s => ⟨rfl, rfl⟩, fun t s => rfl, ?_, rfl⟩
  intro t d s h
  by_cases hc : d ∈ s.pending ∧ d ≤ t
  · exact ⟨hc.2, hc.1⟩
  · exfalso
    apply h
    simp [connStep, hc]

/-- C5 witness: the timer scheduled for due time 1500 fires at time 1500
— on time and from the pending set. -/
theorem reconnect_amended_w : 1500 ≤ 1500 ∧ 1500 ∈ connPending.pending :=
  reconnect_amended.2.2.2.1 1500 1500 connPending (by decide)

end FalconMesh
